import Mathlib

/-!
Verification of the budget-allocation and forward-projection engine of the
money-manager repository (src/logic.py, src/app.py, src/config.py).

Modelling conventions of the shallow embedding:
* Python floats are modelled as rationals (every quantity here is money-sized
  and produced by +, -, *, /, min, max, so the float program and the rational
  program agree on the algebraic facts proved below).
* Python `int(x)` applied to a float is truncation toward zero, `pyInt`.
* pandas timestamps live on an abstract integer day timeline; a pandas month
  period is an integer index together with its start/end instants on that
  timeline (`MonthWin`).  Month-granularity values (`%Y-%m` strings, `Period`
  month arithmetic) are integer month indices.
* A dataframe is a list of typed rows; the column-presence guards of the
  source (which return a neutral zero result when a column is missing) are
  not modelled, since a typed row always carries all its fields.
-/

namespace MM

/-- Python `int()` applied to a numeric value: truncation toward zero. -/
def pyInt (q : ℚ) : ℤ := if 0 ≤ q then ⌊q⌋ else ⌈q⌉

theorem pyInt_nonneg {q : ℚ} (h : 0 ≤ q) : 0 ≤ pyInt q := by
  simp only [pyInt, if_pos h]
  exact Int.floor_nonneg.mpr h

theorem pyInt_le {q : ℚ} (h : 0 ≤ q) : (pyInt q : ℚ) ≤ q := by
  simp only [pyInt, if_pos h]
  exact Int.floor_le q

/-! ## config.py -/

/-- Distance buckets of config.DIST_COEF, plus a case for any other string
(the source looks the bucket up with a default of 1.0). -/
inductive Bucket
  | near
  | mid
  | long
  | other
deriving DecidableEq, Repr

/-- config.DIST_COEF together with the `.get(str(b), 1.0)` default used at
every call site: near 1.0, mid 0.2, long 0.05. -/
def DIST_COEF : Bucket → ℚ
  | .near => 1
  | .mid => 1 / 5
  | .long => 1 / 20
  | .other => 1

/-- config.STATE_COEF_EMERGENCY_NOT_MET = 1.2. -/
def STATE_COEF_EMERGENCY_NOT_MET : ℚ := 6 / 5

/-- config.MIN_NISA_AMOUNT = 3000. -/
def MIN_NISA_AMOUNT : ℚ := 3000

/-- config.MIN_BANK_AMOUNT = 5000. -/
def MIN_BANK_AMOUNT : ℚ := 5000

/-- config.BANK_GREEN_BUFFER_MONTHS = 3.5. -/
def BANK_GREEN_BUFFER_MONTHS : ℚ := 7 / 2

/-! ## Multi-pocket withdrawal cascade (src/app.py, apply_outflow_three_pockets) -/

/-- Return value of `apply_outflow_three_pockets`: the three updated pockets,
the amount taken from each pocket, and the unpaid remainder. -/
structure OutflowRes where
  goals_fund : ℚ
  emergency_cash : ℚ
  nisa : ℚ
  used_goals : ℚ
  used_em : ℚ
  used_nisa : ℚ
  unpaid : ℚ
deriving DecidableEq, Repr

/-- Embedding of src/app.py `apply_outflow_three_pockets` (lines 794-816):
pay `outflow` from the goals fund, then from emergency cash, then from the
investment (NISA) pocket, reporting what is left unpaid. -/
def apply_outflow_three_pockets (goals_fund emergency_cash nisa outflow : ℚ) :
    OutflowRes :=
  let used_goals := min goals_fund outflow
  let goals_fund1 := goals_fund - used_goals
  let remain := outflow - used_goals
  let used_em := min emergency_cash remain
  let emergency_cash1 := emergency_cash - used_em
  let remain2 := remain - used_em
  let used_nisa := min nisa remain2
  let nisa1 := nisa - used_nisa
  let unpaid := remain2 - used_nisa
  ⟨goals_fund1, emergency_cash1, nisa1, used_goals, used_em, used_nisa, unpaid⟩

/-- C2: the multi-pocket withdrawal consumes the pockets in the order
goals fund, then emergency cash, then investment, each greedily up to its
balance; afterwards every pocket is non-negative, the used amounts plus the
unpaid remainder sum to the requested outflow, and on the concrete scenario
(outflow 50000 against goals 20000 / bank 10000 / investment 100000) it
empties goals and bank, debits investment by 20000, and reports unpaid 0. -/
theorem claim2_three_pocket_outflow :
    (∀ gf em ni outflow : ℚ, 0 ≤ gf → 0 ≤ em → 0 ≤ ni → 0 ≤ outflow →
      (apply_outflow_three_pockets gf em ni outflow).used_goals = min gf outflow ∧
      (apply_outflow_three_pockets gf em ni outflow).used_em =
        min em (outflow - min gf outflow) ∧
      (apply_outflow_three_pockets gf em ni outflow).goals_fund =
        gf - (apply_outflow_three_pockets gf em ni outflow).used_goals ∧
      (apply_outflow_three_pockets gf em ni outflow).emergency_cash =
        em - (apply_outflow_three_pockets gf em ni outflow).used_em ∧
      (apply_outflow_three_pockets gf em ni outflow).nisa =
        ni - (apply_outflow_three_pockets gf em ni outflow).used_nisa ∧
      0 ≤ (apply_outflow_three_pockets gf em ni outflow).goals_fund ∧
      0 ≤ (apply_outflow_three_pockets gf em ni outflow).emergency_cash ∧
      0 ≤ (apply_outflow_three_pockets gf em ni outflow).nisa ∧
      0 ≤ (apply_outflow_three_pockets gf em ni outflow).unpaid ∧
      (apply_outflow_three_pockets gf em ni outflow).used_goals +
        (apply_outflow_three_pockets gf em ni outflow).used_em +
        (apply_outflow_three_pockets gf em ni outflow).used_nisa +
        (apply_outflow_three_pockets gf em ni outflow).unpaid = outflow) ∧
    apply_outflow_three_pockets 20000 10000 100000 50000 =
      ⟨0, 0, 80000, 20000, 10000, 20000, 0⟩ := by
  constructor
  · intro gf em ni outflow hgf hem hni hof
    have h1 : min gf outflow ≤ outflow := min_le_right _ _
    have h1a : min gf outflow ≤ gf := min_le_left _ _
    have h2 : min em (outflow - min gf outflow) ≤ outflow - min gf outflow :=
      min_le_right _ _
    have h2a : min em (outflow - min gf outflow) ≤ em := min_le_left _ _
    have h3 : min ni (outflow - min gf outflow - min em (outflow - min gf outflow)) ≤
        outflow - min gf outflow - min em (outflow - min gf outflow) :=
      min_le_right _ _
    have h3a : min ni (outflow - min gf outflow - min em (outflow - min gf outflow)) ≤ ni :=
      min_le_left _ _
    refine ⟨rfl, rfl, rfl, rfl, rfl, ?_, ?_, ?_, ?_, ?_⟩ <;>
      simp only [apply_outflow_three_pockets] <;> linarith
  · simp only [apply_outflow_three_pockets, OutflowRes.mk.injEq]
    norm_num [min_def]

/-- Witness for C2: the universally quantified part instantiated on the
concrete end-to-end scenario of the claim. -/
theorem claim2_three_pocket_outflow_witness :
    0 ≤ (apply_outflow_three_pockets 20000 10000 100000 50000).goals_fund ∧
    (apply_outflow_three_pockets 20000 10000 100000 50000).used_goals +
      (apply_outflow_three_pockets 20000 10000 100000 50000).used_em +
      (apply_outflow_three_pockets 20000 10000 100000 50000).used_nisa +
      (apply_outflow_three_pockets 20000 10000 100000 50000).unpaid = 50000 := by
  have h := claim2_three_pocket_outflow.1 20000 10000 100000 50000
    (by norm_num) (by norm_num) (by norm_num) (by norm_num)
  exact ⟨h.2.2.2.2.2.1, h.2.2.2.2.2.2.2.2.2⟩

/-! ## Required-payment solver (src/app.py and src/logic.py,
solve_required_monthly_pmt; the two copies are identical) -/

/-- Embedding of `solve_required_monthly_pmt`: the number of months is
floored at 1, a non-positive monthly rate uses the linear formula, a positive
rate uses the annuity identity, and the result is clamped at 0. -/
def solve_required_monthly_pmt (pv fv_target r_month : ℚ) (n_months : ℤ) : ℚ :=
  let n : ℤ := max n_months 1
  if r_month ≤ 0 then
    max ((fv_target - pv) / (n : ℚ)) 0
  else
    let a : ℚ := (1 + r_month) ^ n.toNat
    let denom : ℚ := (a - 1) / r_month
    max ((fv_target - pv * a) / denom) 0

/-- Counterexample to C6 as stated: at PV = 10, FV = 0, n = 1 the claim
predicts (FV - PV) / n = -10, but the code clamps the result at 0. -/
theorem claim6_cx :
    solve_required_monthly_pmt 10 0 0 1 = 0 ∧ ((0 : ℚ) - 10) / ((1 : ℤ) : ℚ) = -10 := by
  constructor
  · simp only [solve_required_monthly_pmt]
    norm_num
  · norm_num

/-- C6 amended: with zero monthly rate and a positive month count the solver
returns max((FV - PV) / n, 0); this equals (FV - PV) / n exactly whenever
FV is at least PV. -/
theorem claim6_solve_pmt_zero_rate (pv fv : ℚ) (n : ℤ) (hn : 1 ≤ n) :
    solve_required_monthly_pmt pv fv 0 n = max ((fv - pv) / (n : ℚ)) 0 ∧
    (pv ≤ fv → solve_required_monthly_pmt pv fv 0 n = (fv - pv) / (n : ℚ)) := by
  have hmax : max n 1 = n := max_eq_left hn
  constructor
  · simp only [solve_required_monthly_pmt, hmax, if_pos (le_refl (0 : ℚ))]
  · intro hle
    simp only [solve_required_monthly_pmt, hmax, if_pos (le_refl (0 : ℚ))]
    have hn0 : (0 : ℚ) ≤ (n : ℚ) := by exact_mod_cast le_trans (by norm_num) hn
    have : (0 : ℚ) ≤ (fv - pv) / (n : ℚ) := div_nonneg (by linarith) hn0
    exact max_eq_left this

/-- Witness for C6: the amended theorem applied at PV = 0, FV = 120, n = 12
gives exactly 10. -/
theorem claim6_solve_pmt_zero_rate_witness :
    solve_required_monthly_pmt 0 120 0 12 = 10 := by
  have h := (claim6_solve_pmt_zero_rate 0 120 12 (by norm_num)).2 (by norm_num)
  rw [h]
  norm_num

/-! ## Budget allocator (src/logic.py, allocate_monthly_budget, lines 531-629)

The allocator receives the goal plan as a dataframe with bucket_order,
deadline and plan_pmt columns; a row is modelled by `GoalPlan`.  The result
record keeps the five integer outputs of the source dict under their source
names and additionally exposes the local variables of the waterfall
(reservation, 50 percent cash keep, flow/stock split of the NISA minimum,
rational totals) so that theorems can speak about them. -/

/-- Row of the goal-plan dataframe handed to the allocator. -/
structure GoalPlan where
  bucket_order : ℕ
  deadline : ℤ
  plan_pmt : ℚ
deriving DecidableEq, Repr

/-- Comparison used for the pandas sort_values on (bucket_order, deadline). -/
def goalKeyLe (a b : GoalPlan) : Bool :=
  decide (a.bucket_order < b.bucket_order ∨
    (a.bucket_order = b.bucket_order ∧ a.deadline ≤ b.deadline))

/-- Step 4 loop of the allocator: walk the sorted goals and pay each positive
plan_pmt from the remaining flow; the accumulator is (paid so far, remaining
flow). -/
def goalsLoop : List GoalPlan → ℚ × ℚ → ℚ × ℚ
  | [], acc => acc
  | g :: rest, acc =>
    if g.plan_pmt ≤ 0 then goalsLoop rest acc
    else
      let pay := min acc.2 g.plan_pmt
      goalsLoop rest (acc.1 + pay, acc.2 - pay)

/-- Invariants of the Step 4 loop: the paid total only grows, the remaining
flow stays non-negative and never grows, and paid plus remaining is
conserved. -/
theorem goalsLoop_spec (l : List GoalPlan) (tot rem : ℚ) (h : 0 ≤ rem) :
    tot ≤ (goalsLoop l (tot, rem)).1 ∧ 0 ≤ (goalsLoop l (tot, rem)).2 ∧
      (goalsLoop l (tot, rem)).1 + (goalsLoop l (tot, rem)).2 = tot + rem ∧
      (goalsLoop l (tot, rem)).2 ≤ rem := by
  induction l generalizing tot rem with
  | nil => simp [goalsLoop, h, le_refl]
  | cons g rest ih =>
    by_cases hg : g.plan_pmt ≤ 0
    · simpa [goalsLoop, hg] using ih tot rem h
    · push_neg at hg
      have hmin1 : min rem g.plan_pmt ≤ rem := min_le_left _ _
      have hmin0 : 0 ≤ min rem g.plan_pmt := le_min h hg.le
      have h2 : 0 ≤ rem - min rem g.plan_pmt := by linarith
      obtain ⟨i1, i2, i3, i4⟩ := ih (tot + min rem g.plan_pmt) (rem - min rem g.plan_pmt) h2
      simp only [goalsLoop, if_neg (not_le.mpr hg)]
      exact ⟨by linarith, i2, by linarith, by linarith⟩

/-- Base spend of the allocator: monthly_spend_p75, or 200000 when that is
not positive. -/
def alloc_base_spend (p75 : ℚ) : ℚ := if p75 > 0 then p75 else 200000

/-- Step 1 bank amount: the reservation when the flow covers it, else the
whole flow. -/
def alloc_bank1 (cash req : ℚ) : ℚ := if cash ≥ req then req else cash

/-- Step 1 remaining flow. -/
def alloc_rem1 (cash req : ℚ) : ℚ := if cash ≥ req then cash - req else 0

/-- Step 2 extra cash kept in the bank: half of the remaining flow. -/
def alloc_extra (rem1 : ℚ) : ℚ := if rem1 > 0 then rem1 * (1 / 2) else 0

/-- Step 3 stock top-up of the NISA minimum. -/
def alloc_from_stock (stock needed : ℚ) : ℚ :=
  if needed > 0 ∧ stock > 0 then min stock needed else 0

/-- Step 5: any remaining flow after the goals returns to the bank. -/
def alloc_bank_final (bank2 remFinal : ℚ) : ℚ :=
  if remFinal > 0 then bank2 + remFinal else bank2

/-- Buffer target of the allocator: base spend times BANK_GREEN_BUFFER_MONTHS. -/
def alloc_buffer_target (p75 : ℚ) : ℚ := alloc_base_spend p75 * BANK_GREEN_BUFFER_MONTHS

/-- Required bank reservation: MIN_BANK_AMOUNT when the emergency fund is not
met or the stock surplus is below the buffer target, else 0. -/
def alloc_req_bank (em : Bool) (stock p75 : ℚ) : ℚ :=
  if em = true ∨ stock < alloc_buffer_target p75 then MIN_BANK_AMOUNT else 0

/-- Return record of the allocator.  Fields nisa_save, bank_save, goals_save,
goals_shortfall, ideal_goals_total are the int-truncated outputs of the
source dict; the rational fields expose the internal flow variables. -/
structure AllocResult where
  bank_reserve : ℚ
  extra_cash : ℚ
  from_flow_nisa : ℚ
  from_stock : ℚ
  goals_q : ℚ
  bank_q : ℚ
  nisa_q : ℚ
  leftover : ℚ
  nisa_save : ℤ
  bank_save : ℤ
  goals_save : ℤ
  goals_shortfall : ℤ
  ideal_goals_total : ℤ
deriving DecidableEq, Repr

/-- Embedding of src/logic.py `allocate_monthly_budget`: Step 1 reserves the
minimum bank amount, Step 2 keeps half of the remaining flow in the bank,
Step 3 funds the fixed NISA minimum from the flow and tops it up from the
stock surplus, Step 4 pays the sorted goal plans from the remaining flow,
Step 5 returns any leftover flow to the bank. -/
def allocate_monthly_budget (available_cash : ℚ) (goals : List GoalPlan)
    (emergency_not_met : Bool) (stock_surplus monthly_spend_p75 : ℚ) : AllocResult :=
  let req_bank := alloc_req_bank emergency_not_met stock_surplus monthly_spend_p75
  let bank1 := alloc_bank1 available_cash req_bank
  let rem1 := alloc_rem1 available_cash req_bank
  let extra := alloc_extra rem1
  let rem2 := rem1 - extra
  let from_flow_nisa := min rem2 MIN_NISA_AMOUNT
  let rem3 := rem2 - from_flow_nisa
  let from_stock := alloc_from_stock stock_surplus (MIN_NISA_AMOUNT - from_flow_nisa)
  let p := goalsLoop (goals.mergeSort goalKeyLe) (0, rem3)
  let bank3 := alloc_bank_final (bank1 + extra) p.2
  let ideal := (goals.map GoalPlan.plan_pmt).sum
  { bank_reserve := bank1, extra_cash := extra, from_flow_nisa := from_flow_nisa,
    from_stock := from_stock, goals_q := p.1, bank_q := bank3,
    nisa_q := from_flow_nisa + from_stock,
    leftover := if p.2 > 0 then p.2 else 0,
    nisa_save := pyInt (from_flow_nisa + from_stock), bank_save := pyInt bank3,
    goals_save := pyInt p.1, goals_shortfall := pyInt (ideal - p.1),
    ideal_goals_total := pyInt ideal }

theorem alloc_req_bank_nonneg (em : Bool) (stock p75 : ℚ) :
    0 ≤ alloc_req_bank em stock p75 := by
  unfold alloc_req_bank MIN_BANK_AMOUNT
  split <;> norm_num

theorem alloc_bank1_nonneg {cash req : ℚ} (h1 : 0 ≤ cash) (h2 : 0 ≤ req) :
    0 ≤ alloc_bank1 cash req := by
  unfold alloc_bank1
  split <;> linarith

theorem alloc_bank1_le {cash req : ℚ} (_h2 : 0 ≤ req) :
    alloc_bank1 cash req ≤ cash := by
  unfold alloc_bank1
  split <;> linarith

theorem alloc_rem1_eq (cash req : ℚ) :
    alloc_rem1 cash req = cash - alloc_bank1 cash req := by
  unfold alloc_rem1 alloc_bank1
  split <;> ring

theorem alloc_rem1_nonneg (cash req : ℚ) : 0 ≤ alloc_rem1 cash req := by
  unfold alloc_rem1
  split <;> linarith

theorem alloc_extra_eq {rem1 : ℚ} (h : 0 ≤ rem1) : alloc_extra rem1 = rem1 / 2 := by
  unfold alloc_extra
  split
  · ring
  · have : rem1 = 0 := le_antisymm (by linarith) h
    rw [this]
    norm_num

theorem alloc_from_stock_nonneg (stock needed : ℚ) : 0 ≤ alloc_from_stock stock needed := by
  unfold alloc_from_stock
  split
  · rename_i hc
    exact le_min hc.2.le hc.1.le
  · exact le_refl 0

theorem alloc_from_stock_le_needed {stock needed : ℚ} (h : 0 ≤ needed) :
    alloc_from_stock stock needed ≤ needed := by
  unfold alloc_from_stock
  split
  · exact min_le_right _ _
  · exact h

theorem alloc_from_stock_le_stock {stock needed : ℚ} (h : 0 ≤ stock) :
    alloc_from_stock stock needed ≤ stock := by
  unfold alloc_from_stock
  split
  · exact min_le_left _ _
  · exact h

theorem alloc_bank_final_eq (bank2 : ℚ) {remFinal : ℚ} (h : 0 ≤ remFinal) :
    alloc_bank_final bank2 remFinal = bank2 + remFinal := by
  unfold alloc_bank_final
  split
  · rfl
  · have : remFinal = 0 := le_antisymm (by linarith) h
    rw [this]
    ring

/-- Master invariants of the allocator waterfall, shared by the claims about
it: bounds of the reservation, the exact 50 percent split, non-negativity of
all flows, conservation of available_cash across bank, flow-NISA and goals,
and the bounds of the stock draw. -/
theorem alloc_master (cash stock p75 : ℚ) (goals : List GoalPlan) (em : Bool)
    (h1 : 0 ≤ cash) :
    0 ≤ (allocate_monthly_budget cash goals em stock p75).bank_reserve ∧
    (allocate_monthly_budget cash goals em stock p75).bank_reserve ≤ cash ∧
    (allocate_monthly_budget cash goals em stock p75).extra_cash =
      (cash - (allocate_monthly_budget cash goals em stock p75).bank_reserve) / 2 ∧
    0 ≤ (allocate_monthly_budget cash goals em stock p75).from_flow_nisa ∧
    0 ≤ (allocate_monthly_budget cash goals em stock p75).goals_q ∧
    0 ≤ (allocate_monthly_budget cash goals em stock p75).bank_q ∧
    (allocate_monthly_budget cash goals em stock p75).from_flow_nisa +
      (allocate_monthly_budget cash goals em stock p75).goals_q ≤
      (cash - (allocate_monthly_budget cash goals em stock p75).bank_reserve) / 2 ∧
    (allocate_monthly_budget cash goals em stock p75).bank_q +
      (allocate_monthly_budget cash goals em stock p75).from_flow_nisa +
      (allocate_monthly_budget cash goals em stock p75).goals_q = cash ∧
    (allocate_monthly_budget cash goals em stock p75).nisa_q =
      (allocate_monthly_budget cash goals em stock p75).from_flow_nisa +
      (allocate_monthly_budget cash goals em stock p75).from_stock ∧
    0 ≤ (allocate_monthly_budget cash goals em stock p75).from_stock ∧
    (allocate_monthly_budget cash goals em stock p75).from_stock ≤ MIN_NISA_AMOUNT ∧
    (0 ≤ stock → (allocate_monthly_budget cash goals em stock p75).from_stock ≤ stock) := by
  simp only [allocate_monthly_budget]
  set req := alloc_req_bank em stock p75 with hreqd
  have hreq0 : 0 ≤ req := alloc_req_bank_nonneg em stock p75
  have hb0 : 0 ≤ alloc_bank1 cash req := alloc_bank1_nonneg h1 hreq0
  have hbc : alloc_bank1 cash req ≤ cash := alloc_bank1_le hreq0
  have hr1e : alloc_rem1 cash req = cash - alloc_bank1 cash req := alloc_rem1_eq cash req
  have hr10 : 0 ≤ alloc_rem1 cash req := alloc_rem1_nonneg cash req
  rw [alloc_extra_eq hr10]
  set r1 := alloc_rem1 cash req with hr1d
  set F := min (r1 - r1 / 2) MIN_NISA_AMOUNT with hFd
  have hMN : (0 : ℚ) ≤ MIN_NISA_AMOUNT := by norm_num [MIN_NISA_AMOUNT]
  have hF0 : 0 ≤ F := le_min (by linarith) hMN
  have hF1 : F ≤ r1 - r1 / 2 := min_le_left _ _
  have hFM : F ≤ MIN_NISA_AMOUNT := min_le_right _ _
  have hr30 : 0 ≤ r1 - r1 / 2 - F := by linarith
  obtain ⟨g1, g2, g3, g4⟩ :=
    goalsLoop_spec (goals.mergeSort goalKeyLe) 0 (r1 - r1 / 2 - F) hr30
  rw [alloc_bank_final_eq _ g2]
  have hfs0 : 0 ≤ alloc_from_stock stock (MIN_NISA_AMOUNT - F) :=
    alloc_from_stock_nonneg stock _
  have hfsn : alloc_from_stock stock (MIN_NISA_AMOUNT - F) ≤ MIN_NISA_AMOUNT - F :=
    alloc_from_stock_le_needed (by linarith)
  refine ⟨hb0, hbc, by linarith, hF0, by linarith, by linarith, ?_, by linarith, trivial,
    hfs0, by linarith, fun hs => alloc_from_stock_le_stock hs⟩
  linarith

/-- C1: with non-negative available_cash, stock_surplus and monthly_spend_p75
the allocator returns non-negative bank_save, nisa_save and goals_save, and
their sum is at most available_cash plus the amount actually drawn from
stock_surplus. -/
theorem claim1_alloc_nonneg_bounded (cash stock p75 : ℚ) (goals : List GoalPlan)
    (em : Bool) (h1 : 0 ≤ cash) (_h2 : 0 ≤ stock) (_h3 : 0 ≤ p75) :
    0 ≤ (allocate_monthly_budget cash goals em stock p75).bank_save ∧
    0 ≤ (allocate_monthly_budget cash goals em stock p75).nisa_save ∧
    0 ≤ (allocate_monthly_budget cash goals em stock p75).goals_save ∧
    (((allocate_monthly_budget cash goals em stock p75).bank_save +
      (allocate_monthly_budget cash goals em stock p75).nisa_save +
      (allocate_monthly_budget cash goals em stock p75).goals_save : ℤ) : ℚ) ≤
      cash + (allocate_monthly_budget cash goals em stock p75).from_stock := by
  obtain ⟨m1, m2, m3, m4, m5, m6, m7, m8, m9, m10, m11, m12⟩ :=
    alloc_master cash stock p75 goals em h1
  have eb : (allocate_monthly_budget cash goals em stock p75).bank_save
      = pyInt ((allocate_monthly_budget cash goals em stock p75).bank_q) := rfl
  have en : (allocate_monthly_budget cash goals em stock p75).nisa_save
      = pyInt ((allocate_monthly_budget cash goals em stock p75).nisa_q) := rfl
  have eg : (allocate_monthly_budget cash goals em stock p75).goals_save
      = pyInt ((allocate_monthly_budget cash goals em stock p75).goals_q) := rfl
  have hnq : 0 ≤ (allocate_monthly_budget cash goals em stock p75).nisa_q := by
    rw [m9]
    linarith
  refine ⟨?_, ?_, ?_, ?_⟩
  · rw [eb]
    exact pyInt_nonneg m6
  · rw [en]
    exact pyInt_nonneg hnq
  · rw [eg]
    exact pyInt_nonneg m5
  · rw [eb, en, eg]
    push_cast
    have b1 := pyInt_le m6
    have b2 := pyInt_le hnq
    have b3 := pyInt_le m5
    linarith

/-- Witness for C1: the theorem applied at available_cash 100000 with empty
goal list, met emergency fund and zero stock surplus. -/
theorem claim1_alloc_nonneg_bounded_witness :
    0 ≤ (allocate_monthly_budget 100000 [] false 0 0).bank_save ∧
    0 ≤ (allocate_monthly_budget 100000 [] false 0 0).nisa_save ∧
    0 ≤ (allocate_monthly_budget 100000 [] false 0 0).goals_save ∧
    (((allocate_monthly_budget 100000 [] false 0 0).bank_save +
      (allocate_monthly_budget 100000 [] false 0 0).nisa_save +
      (allocate_monthly_budget 100000 [] false 0 0).goals_save : ℤ) : ℚ) ≤
      100000 + (allocate_monthly_budget 100000 [] false 0 0).from_stock :=
  claim1_alloc_nonneg_bounded 100000 0 0 [] false (by norm_num) (by norm_num)
    (by norm_num)

/-- C9: after the minimum bank reservation, exactly half of the remaining
flow is added to the bank allocation, so the flow-funded investment minimum
and all goal payments together receive at most half of the post-reservation
flow; any further investment funding is the stock top-up only. -/
theorem claim9_half_to_bank (cash stock p75 : ℚ) (goals : List GoalPlan)
    (em : Bool) (h1 : 0 ≤ cash) (h2 : 0 ≤ stock) :
    (allocate_monthly_budget cash goals em stock p75).extra_cash =
      (cash - (allocate_monthly_budget cash goals em stock p75).bank_reserve) / 2 ∧
    (allocate_monthly_budget cash goals em stock p75).from_flow_nisa +
      (allocate_monthly_budget cash goals em stock p75).goals_q ≤
      (cash - (allocate_monthly_budget cash goals em stock p75).bank_reserve) / 2 ∧
    (allocate_monthly_budget cash goals em stock p75).nisa_q =
      (allocate_monthly_budget cash goals em stock p75).from_flow_nisa +
      (allocate_monthly_budget cash goals em stock p75).from_stock ∧
    (allocate_monthly_budget cash goals em stock p75).from_stock ≤ stock := by
  obtain ⟨m1, m2, m3, m4, m5, m6, m7, m8, m9, m10, m11, m12⟩ :=
    alloc_master cash stock p75 goals em h1
  exact ⟨m3, m7, m9, m12 h2⟩

/-- Witness for C9: the theorem applied at available_cash 20000, stock
surplus 0, spend percentile 100, one near goal of 8000, emergency not met. -/
theorem claim9_half_to_bank_witness :
    (allocate_monthly_budget 20000 [⟨0, 0, 8000⟩] true 0 100).extra_cash =
      (20000 - (allocate_monthly_budget 20000 [⟨0, 0, 8000⟩] true 0 100).bank_reserve) / 2 ∧
    (allocate_monthly_budget 20000 [⟨0, 0, 8000⟩] true 0 100).from_flow_nisa +
      (allocate_monthly_budget 20000 [⟨0, 0, 8000⟩] true 0 100).goals_q ≤
      (20000 - (allocate_monthly_budget 20000 [⟨0, 0, 8000⟩] true 0 100).bank_reserve) / 2 ∧
    (allocate_monthly_budget 20000 [⟨0, 0, 8000⟩] true 0 100).nisa_q =
      (allocate_monthly_budget 20000 [⟨0, 0, 8000⟩] true 0 100).from_flow_nisa +
      (allocate_monthly_budget 20000 [⟨0, 0, 8000⟩] true 0 100).from_stock ∧
    (allocate_monthly_budget 20000 [⟨0, 0, 8000⟩] true 0 100).from_stock ≤ 0 :=
  claim9_half_to_bank 20000 0 100 [⟨0, 0, 8000⟩] true (by norm_num) (by norm_num)

/-- Counterexample to C5 as stated: available_cash 0 (cash short of the goal
plan of 50000), stock_surplus 1000000 far above the buffer target 35000, so
the claimed bounded slice of stock_surplus is positive; yet the code pays the
goal nothing (goals_save = 0) - the only stock draw is the NISA minimum. -/
theorem claim5_cx :
    (allocate_monthly_budget 0 [⟨0, 0, 50000⟩] false 1000000 10000).goals_save = 0 ∧
    (allocate_monthly_budget 0 [⟨0, 0, 50000⟩] false 1000000 10000).goals_q = 0 ∧
    (allocate_monthly_budget 0 [⟨0, 0, 50000⟩] false 1000000 10000).ideal_goals_total = 50000 ∧
    (allocate_monthly_budget 0 [⟨0, 0, 50000⟩] false 1000000 10000).from_stock = 3000 ∧
    (0 : ℚ) < 1000000 - alloc_buffer_target 10000 := by
  refine ⟨?_, ?_, ?_, ?_, ?_⟩ <;>
    norm_num [allocate_monthly_budget, alloc_req_bank, alloc_buffer_target,
      alloc_base_spend, alloc_bank1, alloc_rem1, alloc_extra, alloc_from_stock,
      alloc_bank_final, goalsLoop, pyInt, MIN_NISA_AMOUNT, MIN_BANK_AMOUNT,
      BANK_GREEN_BUFFER_MONTHS, List.mergeSort]

/-- C5 amended: each goal in priority order is paid up to its plan from the
remaining available_cash only - bank, flow-NISA and goal payments exhaust
available_cash exactly, and the only stock_surplus draw is the top-up of the
fixed NISA minimum, bounded by MIN_NISA_AMOUNT and by the surplus itself; no
goal payment ever draws from stock_surplus. -/
theorem claim5_goals_cash_only (cash stock p75 : ℚ) (goals : List GoalPlan)
    (em : Bool) (h1 : 0 ≤ cash) (h2 : 0 ≤ stock) :
    (allocate_monthly_budget cash goals em stock p75).bank_q +
      (allocate_monthly_budget cash goals em stock p75).from_flow_nisa +
      (allocate_monthly_budget cash goals em stock p75).goals_q = cash ∧
    (allocate_monthly_budget cash goals em stock p75).nisa_q =
      (allocate_monthly_budget cash goals em stock p75).from_flow_nisa +
      (allocate_monthly_budget cash goals em stock p75).from_stock ∧
    (allocate_monthly_budget cash goals em stock p75).from_stock ≤ MIN_NISA_AMOUNT ∧
    (allocate_monthly_budget cash goals em stock p75).from_stock ≤ stock := by
  obtain ⟨m1, m2, m3, m4, m5, m6, m7, m8, m9, m10, m11, m12⟩ :=
    alloc_master cash stock p75 goals em h1
  exact ⟨m8, m9, m11, m12 h2⟩

/-- Witness for the amended C5: the theorem applied at available_cash 1000,
stock surplus 500, no goals, emergency not met. -/
theorem claim5_goals_cash_only_witness :
    (allocate_monthly_budget 1000 [] true 500 0).bank_q +
      (allocate_monthly_budget 1000 [] true 500 0).from_flow_nisa +
      (allocate_monthly_budget 1000 [] true 500 0).goals_q = 1000 ∧
    (allocate_monthly_budget 1000 [] true 500 0).nisa_q =
      (allocate_monthly_budget 1000 [] true 500 0).from_flow_nisa +
      (allocate_monthly_budget 1000 [] true 500 0).from_stock ∧
    (allocate_monthly_budget 1000 [] true 500 0).from_stock ≤ MIN_NISA_AMOUNT ∧
    (allocate_monthly_budget 1000 [] true 500 0).from_stock ≤ 500 :=
  claim5_goals_cash_only 1000 500 0 [] true (by norm_num) (by norm_num)

/-! ## Goal scheduler (months_until and compute_goals_monthly_plan; the
copies in src/logic.py and src/app.py are identical) -/

/-- Embedding of `months_until`: month periods are integer month indices; a
missing deadline (NaT) gives 1, otherwise the whole-month difference floored
at 1. -/
def months_until (today : ℤ) (deadline : Option ℤ) : ℤ :=
  match deadline with
  | none => 1
  | some d => max (d - today) 1

theorem months_until_pos (today : ℤ) (deadline : Option ℤ) :
    1 ≤ months_until today deadline := by
  unfold months_until
  cases deadline with
  | none => exact le_refl 1
  | some d => exact le_max_right _ _

/-- Row of the goals progress dataframe as consumed by
compute_goals_monthly_plan: remaining amount, deadline month and distance
bucket. -/
structure GoalProgress where
  remaining_amount : ℚ
  deadline : Option ℤ
  bucket : Bucket
deriving DecidableEq, Repr

/-- State coefficient of the monthly plan: STATE_COEF_EMERGENCY_NOT_MET when
the emergency fund is not met, else 1.0. -/
def stateCoef (emergency_not_met : Bool) : ℚ :=
  if emergency_not_met then STATE_COEF_EMERGENCY_NOT_MET else 1

/-- App main line 1096: the emergency fund is considered not met exactly when
the bank balance is below fund_rec. -/
def emergencyNotMet (bank_balance fund_rec : ℚ) : Bool :=
  decide (bank_balance < fund_rec)

/-- min_pmt column of compute_goals_monthly_plan: remaining amount over the
months left (floored at 1), zero once the goal is covered. -/
def min_pmt (today : ℤ) (r : GoalProgress) : ℚ :=
  if r.remaining_amount ≤ 0 then 0
  else r.remaining_amount / ((max (months_until today r.deadline) 1 : ℤ) : ℚ)

/-- plan_pmt column of compute_goals_monthly_plan. -/
def plan_pmt (today : ℤ) (emergency_not_met : Bool) (r : GoalProgress) : ℚ :=
  if r.remaining_amount ≤ 0 then 0
  else min_pmt today r * (1 + (stateCoef emergency_not_met - 1) * DIST_COEF r.bucket)

/-- Total of compute_goals_monthly_plan: sum of plan_pmt over the rows. -/
def compute_goals_monthly_plan (rows : List GoalProgress) (today : ℤ)
    (emergency_not_met : Bool) : ℚ :=
  (rows.map (plan_pmt today emergency_not_met)).sum

/-- C4: for a goal row with positive remaining amount the planned monthly
contribution is remaining_amount / months_until times
(1 + (state_coef - 1) * distance_coef), the state coefficient is 1.2 exactly
when the bank balance is below fund_rec, and the concrete scenario (120000
remaining, deadline 12 months out, near bucket, emergency met) yields a plan
of 10000. -/
theorem claim4_goals_plan_formula (today : ℤ) (bank fund_rec : ℚ)
    (r : GoalProgress) (h : 0 < r.remaining_amount) :
    plan_pmt today (emergencyNotMet bank fund_rec) r =
      r.remaining_amount / ((months_until today r.deadline : ℤ) : ℚ) *
        (1 + (stateCoef (emergencyNotMet bank fund_rec) - 1) * DIST_COEF r.bucket) ∧
    (stateCoef (emergencyNotMet bank fund_rec) = 6 / 5 ↔ bank < fund_rec) ∧
    plan_pmt 0 (emergencyNotMet 1000000 500000) ⟨120000, some 12, Bucket.near⟩ = 10000 := by
  have hmu : max (months_until today r.deadline) 1 = months_until today r.deadline :=
    max_eq_left (months_until_pos today r.deadline)
  refine ⟨?_, ?_, ?_⟩
  · rw [plan_pmt, if_neg (not_le.mpr h), min_pmt, if_neg (not_le.mpr h), hmu]
  · by_cases hb : bank < fund_rec
    · simp [stateCoef, emergencyNotMet, hb, STATE_COEF_EMERGENCY_NOT_MET]
    · constructor
      · intro h15
        simp [stateCoef, emergencyNotMet, hb] at h15
        norm_num at h15
      · intro hlt
        exact absurd hlt hb
  · norm_num [plan_pmt, min_pmt, months_until, stateCoef, emergencyNotMet,
      DIST_COEF, STATE_COEF_EMERGENCY_NOT_MET]

/-- Witness for C4: the theorem applied to the concrete scenario row. -/
theorem claim4_goals_plan_formula_witness :
    plan_pmt 0 (emergencyNotMet 1000000 500000) ⟨120000, some 12, Bucket.near⟩ =
      (120000 : ℚ) / ((months_until 0 (some 12) : ℤ) : ℚ) *
        (1 + (stateCoef (emergencyNotMet 1000000 500000) - 1) * DIST_COEF Bucket.near) :=
  (claim4_goals_plan_formula 0 1000000 500000 ⟨120000, some 12, Bucket.near⟩
    (by norm_num)).1

/-! ## Fixed costs (src/logic.py, calculate_monthly_fix_cost lines 45-58 and
monthly_fix_cost_series lines 266-294) -/

/-- Payment cycle of a fixed cost row: the source tests the cycle string for
the monthly marker, then the yearly marker; any other string falls through to
the full amount. -/
inductive Cycle
  | monthly
  | yearly
  | other
deriving DecidableEq, Repr

/-- Row of the FixedCost table: optional start date (None models NaN),
optional end date, amount and cycle. -/
structure FixRow where
  start : Option ℤ
  stop : Option ℤ
  amount : ℚ
  cycle : Cycle
deriving DecidableEq, Repr

/-- Activity filter of calculate_monthly_fix_cost: start date present and at
most today, end date absent or at least today. -/
def fixActiveAt (today : ℤ) (r : FixRow) : Bool :=
  match r.start with
  | none => false
  | some s => decide (s ≤ today) &&
      (match r.stop with
       | none => true
       | some e => decide (today ≤ e))

/-- Embedding of calculate_monthly_fix_cost: the sum of the full amounts of
the rows active at `today`; the cycle column is not consulted. -/
def calculate_monthly_fix_cost (rows : List FixRow) (today : ℤ) : ℚ :=
  ((rows.filter (fixActiveAt today)).map FixRow.amount).sum

/-- Month window on the day timeline: the month index with its start_time
and end_time instants. -/
structure MonthWin where
  idx : ℤ
  mStart : ℤ
  mEnd : ℤ
deriving DecidableEq, Repr

/-- Activity filter of monthly_fix_cost_series for one month: start present
and at most the month end, end date absent or at least the month start. -/
def fixActiveInMonth (m : MonthWin) (r : FixRow) : Bool :=
  match r.start with
  | none => false
  | some s => decide (s ≤ m.mEnd) &&
      (match r.stop with
       | none => true
       | some e => decide (m.mStart ≤ e))

/-- monthly_amount column of monthly_fix_cost_series: the full amount for a
monthly cycle, a twelfth for a yearly cycle, the full amount otherwise. -/
def cycleMonthlyAmount (r : FixRow) : ℚ :=
  match r.cycle with
  | .monthly => r.amount
  | .yearly => r.amount / 12
  | .other => r.amount

/-- One month entry of monthly_fix_cost_series. -/
def monthly_fix_cost_month (rows : List FixRow) (m : MonthWin) : ℚ :=
  ((rows.filter (fixActiveInMonth m)).map cycleMonthlyAmount).sum

/-- Embedding of monthly_fix_cost_series over a supplied list of month
windows (build_month_list constructs the 12 trailing calendar months; the
calendar itself is abstracted into the windows). -/
def monthly_fix_cost_series (rows : List FixRow) (months : List MonthWin) : List ℚ :=
  months.map (monthly_fix_cost_month rows)

/-- The current-month fixed cost as the spec describes it: sum of active
amounts with annual-cycle amounts divided by 12.  Stated from the words of
the spec, for comparison with `calculate_monthly_fix_cost`. -/
def spec_monthly_fixed_cost (rows : List FixRow) (today : ℤ) : ℚ :=
  ((rows.filter (fixActiveAt today)).map cycleMonthlyAmount).sum

/-- Yearly-cycle part of the rows active in a month. -/
def yearly_active_amount (rows : List FixRow) (m : MonthWin) : ℚ :=
  ((rows.filter (fun r => fixActiveInMonth m r && decide (r.cycle = Cycle.yearly))).map
    FixRow.amount).sum

theorem calc_fix_cons (r : FixRow) (rest : List FixRow) (t : ℤ) :
    calculate_monthly_fix_cost (r :: rest) t =
      (if fixActiveAt t r then r.amount else 0) + calculate_monthly_fix_cost rest t := by
  by_cases hA : fixActiveAt t r = true <;>
    simp [calculate_monthly_fix_cost, List.filter_cons, hA]

theorem month_fix_cons (r : FixRow) (rest : List FixRow) (m : MonthWin) :
    monthly_fix_cost_month (r :: rest) m =
      (if fixActiveInMonth m r then cycleMonthlyAmount r else 0) +
        monthly_fix_cost_month rest m := by
  by_cases hA : fixActiveInMonth m r = true <;>
    simp [monthly_fix_cost_month, List.filter_cons, hA]

theorem yearly_active_cons (r : FixRow) (rest : List FixRow) (m : MonthWin) :
    yearly_active_amount (r :: rest) m =
      (if fixActiveInMonth m r ∧ r.cycle = Cycle.yearly then r.amount else 0) +
        yearly_active_amount rest m := by
  by_cases hA : fixActiveInMonth m r = true
  · by_cases hY : r.cycle = Cycle.yearly <;>
      simp [yearly_active_amount, List.filter_cons, hA, hY]
  · simp [yearly_active_amount, List.filter_cons, hA]

/-- Counterexample to C3 as stated: one active yearly fixed cost of 1200; the
claim predicts a current-month contribution of 100, but
calculate_monthly_fix_cost sums the full amount 1200. -/
theorem claim3_cx :
    calculate_monthly_fix_cost [⟨some 0, none, 1200, Cycle.yearly⟩] 0 = 1200 ∧
    spec_monthly_fixed_cost [⟨some 0, none, 1200, Cycle.yearly⟩] 0 = 100 ∧
    calculate_monthly_fix_cost [⟨some 0, none, 1200, Cycle.yearly⟩] 0 ≠
      spec_monthly_fixed_cost [⟨some 0, none, 1200, Cycle.yearly⟩] 0 := by
  refine ⟨?_, ?_, ?_⟩ <;>
    norm_num [calculate_monthly_fix_cost, spec_monthly_fixed_cost, fixActiveAt,
      cycleMonthlyAmount, List.filter_cons]

/-- C3 amended: the cycle adjustment (annual amount divided by 12) lives in
monthly_fix_cost_series, not in calculate_monthly_fix_cost; over any rows
whose point-activity at as_of_date agrees with their window-activity in the
month, the current-month function exceeds the series entry by exactly 11/12
of the active yearly amounts. -/
theorem claim3_fix_point_vs_series (rows : List FixRow) (today : ℤ) (m : MonthWin)
    (h : ∀ r ∈ rows, fixActiveAt today r = fixActiveInMonth m r) :
    calculate_monthly_fix_cost rows today =
      monthly_fix_cost_month rows m + (11 / 12) * yearly_active_amount rows m := by
  induction rows with
  | nil =>
    simp [calculate_monthly_fix_cost, monthly_fix_cost_month, yearly_active_amount]
  | cons r rest ih =>
    have hr : fixActiveAt today r = fixActiveInMonth m r := h r (List.mem_cons_self r rest)
    have ihh := ih (fun x hx => h x (List.mem_cons_of_mem r hx))
    rw [calc_fix_cons, month_fix_cons, yearly_active_cons, hr, ihh]
    by_cases hA : fixActiveInMonth m r = true
    · cases hcy : r.cycle <;>
        simp [hA, hcy, cycleMonthlyAmount] <;> ring
    · simp [hA]

/-- Witness for the amended C3: one monthly row active both at day 10 and in
the month window from day 0 to day 30. -/
theorem claim3_fix_point_vs_series_witness :
    calculate_monthly_fix_cost [⟨some 5, none, 300, Cycle.monthly⟩] 10 =
      monthly_fix_cost_month [⟨some 5, none, 300, Cycle.monthly⟩] ⟨0, 0, 30⟩ +
      (11 / 12) * yearly_active_amount [⟨some 5, none, 300, Cycle.monthly⟩] ⟨0, 0, 30⟩ :=
  claim3_fix_point_vs_series [⟨some 5, none, 300, Cycle.monthly⟩] 10 ⟨0, 0, 30⟩
    (by decide)

/-! ## Forward simulator of src/logic.py (simulate_fi_paths, lines 687-753) -/

/-- Three pockets of the logic-module simulator: pure bank balance, goals
fund, investment (NISA). -/
structure LogicSimState where
  bank : ℚ
  goals : ℚ
  nisa : ℚ
deriving DecidableEq, Repr

/-- Result of the outflow step (src/logic.py lines 704-721): updated pockets,
actual payment and unpaid amount. -/
structure LogicOutflowRes where
  bank : ℚ
  goals : ℚ
  nisa : ℚ
  actual_payment : ℚ
  unpaid_amount : ℚ
deriving DecidableEq, Repr

/-- Outflow step of the logic-module simulator: pay the scheduled outflow
only up to max((bank + goals) - ef_rec, 0), first from the goals pocket and
then from the bank; the investment pocket is not involved. -/
def logicOutflowStep (s : LogicSimState) (ef_rec outflow_total : ℚ) : LogicOutflowRes :=
  let available_cash_to_pay := max ((s.bank + s.goals) - ef_rec) 0
  let actual_payment := min outflow_total available_cash_to_pay
  let unpaid_amount := outflow_total - actual_payment
  let pay_from_goals := min s.goals actual_payment
  let goals1 := s.goals - pay_from_goals
  let pay_from_bank := actual_payment - pay_from_goals
  let bank1 := s.bank - pay_from_bank
  ⟨bank1, goals1, s.nisa, actual_payment, unpaid_amount⟩

/-- Full month transition of the logic-module simulator (lines 704-739):
outflow step, then contributions with the 18-month surplus transfer into the
investment pocket, then growth at the monthly rate r (embedded as a
parameter; the source computes it as (1 + annual_return) ^ (1/12) - 1). -/
def logicMonthStep (s : LogicSimState) (ef_rec outflow_total m_em m_goals m_nisa r : ℚ) :
    LogicSimState × ℚ × ℚ :=
  let o := logicOutflowStep s ef_rec outflow_total
  let current_surplus := max (o.bank - ef_rec) 0
  let stock_power := if current_surplus > 0 then current_surplus / 18 else 0
  let bank2 := o.bank + m_em - (if stock_power > 0 then stock_power else 0)
  let goals2 := o.goals + m_goals
  let nisa2 := (o.nisa + m_nisa + stock_power) * (1 + r)
  (⟨bank2, goals2, nisa2⟩, o.actual_payment, o.unpaid_amount)

/-- C10: the outflow step of the logic forward simulator pays only up to
max((bank + goals) - ef_rec, 0) and records the rest as unpaid, leaves the
investment pocket untouched, keeps both cash pockets non-negative, and never
drives bank + goals below min(bank + goals, ef_rec), so a position at or
above ef_rec never drops below it. -/
theorem claim10_logic_outflow_step (s : LogicSimState) (ef_rec outflow : ℚ)
    (hb : 0 ≤ s.bank) (hg : 0 ≤ s.goals) (hof : 0 ≤ outflow) (hef : 0 ≤ ef_rec) :
    (logicOutflowStep s ef_rec outflow).nisa = s.nisa ∧
    (logicOutflowStep s ef_rec outflow).actual_payment ≤
      max ((s.bank + s.goals) - ef_rec) 0 ∧
    (logicOutflowStep s ef_rec outflow).actual_payment +
      (logicOutflowStep s ef_rec outflow).unpaid_amount = outflow ∧
    min (s.bank + s.goals) ef_rec ≤
      (logicOutflowStep s ef_rec outflow).bank +
      (logicOutflowStep s ef_rec outflow).goals ∧
    0 ≤ (logicOutflowStep s ef_rec outflow).bank ∧
    0 ≤ (logicOutflowStep s ef_rec outflow).goals := by
  have hA0 : (0 : ℚ) ≤ max (s.bank + s.goals - ef_rec) 0 := le_max_right _ _
  have hA2 : max (s.bank + s.goals - ef_rec) 0 ≤ s.bank + s.goals :=
    max_le (by linarith) (by linarith)
  have hP1 : min outflow (max (s.bank + s.goals - ef_rec) 0) ≤
      max (s.bank + s.goals - ef_rec) 0 := min_le_right _ _
  have hP0 : 0 ≤ min outflow (max (s.bank + s.goals - ef_rec) 0) := le_min hof hA0
  have hPG1 : min s.goals (min outflow (max (s.bank + s.goals - ef_rec) 0)) ≤ s.goals :=
    min_le_left _ _
  have hPG2 : min s.goals (min outflow (max (s.bank + s.goals - ef_rec) 0)) ≤
      min outflow (max (s.bank + s.goals - ef_rec) 0) := min_le_right _ _
  have hPG0 : 0 ≤ min s.goals (min outflow (max (s.bank + s.goals - ef_rec) 0)) :=
    le_min hg hP0
  have hPG3 : min outflow (max (s.bank + s.goals - ef_rec) 0) - s.bank ≤
      min s.goals (min outflow (max (s.bank + s.goals - ef_rec) 0)) :=
    le_min (by linarith) (by linarith)
  simp only [logicOutflowStep]
  refine ⟨trivial, hP1, by ring, ?_, by linarith, by linarith⟩
  rcases le_or_lt (s.bank + s.goals - ef_rec) 0 with hc | hc
  · have hmz : max (s.bank + s.goals - ef_rec) 0 = 0 := max_eq_right hc
    linarith [min_le_left (s.bank + s.goals) ef_rec, hmz]
  · have hme : max (s.bank + s.goals - ef_rec) 0 = s.bank + s.goals - ef_rec :=
      max_eq_left hc.le
    linarith [min_le_right (s.bank + s.goals) ef_rec, hme]

/-- Witness for C10: the theorem applied at bank 100, goals 50, nisa 70,
ef_rec 60 and outflow 80. -/
theorem claim10_logic_outflow_step_witness :
    (logicOutflowStep ⟨100, 50, 70⟩ 60 80).nisa = 70 ∧
    (logicOutflowStep ⟨100, 50, 70⟩ 60 80).actual_payment ≤
      max (((100 : ℚ) + 50) - 60) 0 ∧
    (logicOutflowStep ⟨100, 50, 70⟩ 60 80).actual_payment +
      (logicOutflowStep ⟨100, 50, 70⟩ 60 80).unpaid_amount = 80 ∧
    min ((100 : ℚ) + 50) 60 ≤
      (logicOutflowStep ⟨100, 50, 70⟩ 60 80).bank +
      (logicOutflowStep ⟨100, 50, 70⟩ 60 80).goals ∧
    0 ≤ (logicOutflowStep ⟨100, 50, 70⟩ 60 80).bank ∧
    0 ≤ (logicOutflowStep ⟨100, 50, 70⟩ 60 80).goals :=
  claim10_logic_outflow_step ⟨100, 50, 70⟩ 60 80 (by norm_num) (by norm_num)
    (by norm_num) (by norm_num)

/-! ## Forward simulator of src/app.py (simulate_fi_paths, lines 844-971) -/

/-- Inputs of the app-module simulator.  The monthly rate r is embedded as a
parameter: the source computes r = (1 + annual_return) ^ (1/12) - 1 for
annual_return > -1 (so r = 0 at annual_return = 0); months_left is
int(max((end_age - current_age) * 12, 1)); outflow i is the total amount of
the goal events due in the i-th simulated month. -/
structure AppSimCfg where
  r : ℚ
  months_left : ℕ
  em0 : ℚ
  gf0 : ℚ
  ni0 : ℚ
  m_em : ℚ
  m_gf : ℚ
  m_ni : ℚ
  fi_target : ℚ
  ef_rec : ℚ
  outflow : ℕ → ℚ

/-- One recorded row of the app simulator dataframe. -/
structure AppSimRow where
  idx : ℕ
  total_real : ℚ
  investable_real : ℚ
  emergency_real : ℚ
  goals_fund_real : ℚ
  nisa_real : ℚ
  total_ideal : ℚ
  investable_ideal : ℚ
  emergency_ideal : ℚ
  goals_fund_ideal : ℚ
  nisa_ideal : ℚ
  outflow : ℚ
  unpaid_real : ℚ
  unpaid_ideal : ℚ
  fi_ok_real : Bool
  fi_ok_ideal : Bool
deriving DecidableEq, Repr

/-- Running pocket state of the real and ideal paths. -/
structure AppSimSt where
  em : ℚ
  gf : ℚ
  ni : ℚ
  em_i : ℚ
  gf_i : ℚ
  ni_i : ℚ
deriving DecidableEq, Repr

/-- Loop of the app simulator: fuel counts the rows still to record (the
source iterates over months_left + 1 month starts, records a row each time,
and breaks after the last one, skipping the next-month contribution step).
The ideal path splits its level payment 80/20 between investment and
emergency. -/
def appSimGo (cfg : AppSimCfg) (ideal_pmt : ℚ) : ℕ → ℕ → AppSimSt → List AppSimRow
  | 0, _, _ => []
  | fuel + 1, i, s =>
    let ofl := cfg.outflow i
    let real :=
      if ofl > 0 then
        let res := apply_outflow_three_pockets s.gf s.em s.ni ofl
        (res.goals_fund, res.emergency_cash, res.nisa, res.unpaid)
      else (s.gf, s.em, s.ni, 0)
    let ideal :=
      if ofl > 0 then
        let res := apply_outflow_three_pockets s.gf_i s.em_i s.ni_i ofl
        (res.goals_fund, res.emergency_cash, res.nisa, res.unpaid)
      else (s.gf_i, s.em_i, s.ni_i, 0)
    let row : AppSimRow :=
      { idx := i,
        total_real := real.1 + real.2.1 + real.2.2.1,
        investable_real := real.2.1 + real.2.2.1,
        emergency_real := real.2.1,
        goals_fund_real := real.1,
        nisa_real := real.2.2.1,
        total_ideal := ideal.1 + ideal.2.1 + ideal.2.2.1,
        investable_ideal := ideal.2.1 + ideal.2.2.1,
        emergency_ideal := ideal.2.1,
        goals_fund_ideal := ideal.1,
        nisa_ideal := ideal.2.2.1,
        outflow := ofl,
        unpaid_real := real.2.2.2,
        unpaid_ideal := ideal.2.2.2,
        fi_ok_real := decide (real.2.1 + real.2.2.1 ≥ cfg.fi_target) &&
          decide (real.2.1 ≥ cfg.ef_rec),
        fi_ok_ideal := decide (ideal.2.1 + ideal.2.2.1 ≥ cfg.fi_target) &&
          decide (ideal.2.1 ≥ cfg.ef_rec) }
    row ::
      (if fuel = 0 then []
       else
        appSimGo cfg ideal_pmt fuel (i + 1)
          { em := real.2.1 + cfg.m_em,
            gf := real.1 + cfg.m_gf,
            ni := (real.2.2.1 + cfg.m_ni) * (1 + cfg.r),
            em_i := ideal.2.1 + ideal_pmt * (1 - 4 / 5),
            gf_i := ideal.1 + cfg.m_gf,
            ni_i := (ideal.2.2.1 + ideal_pmt * (4 / 5)) * (1 + cfg.r) })

/-- Embedding of src/app.py simulate_fi_paths: the recorded rows, with the
ideal level payment solved once from the investable present value. -/
def simulate_fi_paths_app (cfg : AppSimCfg) : List AppSimRow :=
  let ideal_pmt := solve_required_monthly_pmt (cfg.em0 + cfg.ni0) cfg.fi_target cfg.r
    (cfg.months_left : ℤ)
  appSimGo cfg ideal_pmt (cfg.months_left + 1) 0
    ⟨cfg.em0, cfg.gf0, cfg.ni0, cfg.em0, cfg.gf0, cfg.ni0⟩

/-- App main lines 1406-1412: the projected FI month is the first row of the
dataframe filtered to fi_ok_real. -/
def projected_fi_month (rows : List AppSimRow) : Option ℕ :=
  ((rows.filter (fun row => row.fi_ok_real)).head?).map AppSimRow.idx

theorem head_filter_eq_find {α : Type} (p : α → Bool) (l : List α) :
    (l.filter p).head? = l.find? p := by
  induction l with
  | nil => rfl
  | cons a t ih =>
    cases h : p a
    · rw [List.find?_cons_of_neg _ (by simp [h])]
      simp [List.filter_cons, h, ih]
    · rw [List.find?_cons_of_pos _ h]
      simp [List.filter_cons, h]

theorem appSimGo_rows (cfg : AppSimCfg) (pmt : ℚ) :
    ∀ (fuel i : ℕ) (s : AppSimSt), ∀ row ∈ appSimGo cfg pmt fuel i s,
      row.fi_ok_real = (decide (row.investable_real ≥ cfg.fi_target) &&
        decide (row.emergency_real ≥ cfg.ef_rec)) ∧
      row.investable_real = row.emergency_real + row.nisa_real := by
  intro fuel
  induction fuel with
  | zero =>
    intro i s row hr
    simp [appSimGo] at hr
  | succ fuel ih =>
    intro i s row hr
    simp only [appSimGo, List.mem_cons] at hr
    rcases hr with hr | hr
    · subst hr
      exact ⟨rfl, rfl⟩
    · by_cases hf : fuel = 0
      · rw [if_pos hf] at hr
        simp at hr
      · rw [if_neg hf] at hr
        exact ih _ _ row hr

/-- C7 amended: in every recorded simulation step the flag fi_ok_real is
true iff investable_real (which is emergency cash plus nisa, with no buffer
subtraction) reaches fi_target AND the emergency pocket alone reaches
ef_rec; and the surfaced FI month is the first recorded row whose flag is
true (none when the horizon is exhausted unmet). -/
theorem claim7_fi_flag_and_first_month :
    (∀ (cfg : AppSimCfg), ∀ row ∈ simulate_fi_paths_app cfg,
      row.fi_ok_real = (decide (row.investable_real ≥ cfg.fi_target) &&
        decide (row.emergency_real ≥ cfg.ef_rec)) ∧
      row.investable_real = row.emergency_real + row.nisa_real) ∧
    (∀ rows : List AppSimRow,
      projected_fi_month rows =
        (rows.find? (fun row => row.fi_ok_real)).map AppSimRow.idx ∧
      (projected_fi_month rows = none ↔ ∀ row ∈ rows, row.fi_ok_real = false)) := by
  constructor
  · intro cfg row hr
    exact appSimGo_rows cfg _ _ _ _ row hr
  · intro rows
    constructor
    · rw [projected_fi_month, head_filter_eq_find]
    · rw [projected_fi_month, head_filter_eq_find, Option.map_eq_none',
        List.find?_eq_none]
      simp

/-- Witness for the amended C7: the first-month part applied to a concrete
one-row list whose flag is false. -/
theorem claim7_fi_flag_and_first_month_witness :
    projected_fi_month [⟨0, 0, 0, 0, 0, 0, 0, 0, 0, 0, 0, 0, 0, 0, false, false⟩] =
      (List.find? (fun row => row.fi_ok_real)
        [⟨0, 0, 0, 0, 0, 0, 0, 0, 0, 0, 0, 0, 0, 0, false, false⟩]).map AppSimRow.idx ∧
    (projected_fi_month [⟨0, 0, 0, 0, 0, 0, 0, 0, 0, 0, 0, 0, 0, 0, false, false⟩] = none ↔
      ∀ row ∈ [(⟨0, 0, 0, 0, 0, 0, 0, 0, 0, 0, 0, 0, 0, 0, false, false⟩ : AppSimRow)],
        row.fi_ok_real = false) :=
  claim7_fi_flag_and_first_month.2
    [⟨0, 0, 0, 0, 0, 0, 0, 0, 0, 0, 0, 0, 0, 0, false, false⟩]

/-- Concrete simulator inputs refuting C7 as stated: zero growth, one month
of horizon, nisa 1000, bank 0, target 500, ef_rec 100, no outflows. -/
def appCfgDemo : AppSimCfg where
  r := 0
  months_left := 1
  em0 := 0
  gf0 := 0
  ni0 := 1000
  m_em := 0
  m_gf := 0
  m_ni := 0
  fi_target := 500
  ef_rec := 100
  outflow := fun _ => 0

/-- Counterexample to C7 as stated: in the first recorded step of
appCfgDemo, investment + max(bank - buffer, 0) = 1000 + 0 is at least the
target 500, so the claim says the flag is true; but the code flag
fi_ok_real is false because the emergency pocket 0 is below ef_rec 100. -/
theorem claim7_cx :
    ((simulate_fi_paths_app appCfgDemo).head?.map (fun row => row.fi_ok_real)) =
      some false ∧
    ((simulate_fi_paths_app appCfgDemo).head?.map (fun row =>
      decide (appCfgDemo.fi_target ≤
        row.nisa_real + max (row.emergency_real - appCfgDemo.ef_rec) 0))) =
      some true := by
  constructor <;>
    norm_num [simulate_fi_paths_app, appSimGo, appCfgDemo,
      solve_required_monthly_pmt, max_def]

/-! ## Emergency fund estimator (src/logic.py, estimate_emergency_fund lines
296-336, with the cost series it consumes) -/

/-- Row of the Transactions (Forms_Log) table as the cost aggregators use
it: the calendar month of the date, the amount, and whether the category
belongs to the static expense set. -/
structure TxRow where
  monthIdx : ℤ
  amount : ℚ
  isExpense : Bool
deriving DecidableEq, Repr

/-- Embedding of calculate_monthly_variable_cost: the amounts of the expense
rows of the current month. -/
def calculate_monthly_variable_cost (rows : List TxRow) (curMonth : ℤ) : ℚ :=
  ((rows.filter (fun r => r.isExpense && decide (r.monthIdx = curMonth))).map
    TxRow.amount).sum

/-- One month entry of monthly_variable_cost_series. -/
def monthly_variable_cost_month (rows : List TxRow) (m : MonthWin) : ℚ :=
  ((rows.filter (fun r => r.isExpense && decide (r.monthIdx = m.idx))).map
    TxRow.amount).sum

/-- pandas Series.median(): sort the values; the middle one when the count
is odd, else the mean of the two middle ones (0 for an empty series,
unused). -/
def pandasMedian (l : List ℚ) : ℚ :=
  let s := l.mergeSort (fun a b => decide (a ≤ b))
  let k := s.length
  if k = 0 then 0
  else if k % 2 = 1 then s.getD (k / 2) 0
  else (s.getD (k / 2 - 1) 0 + s.getD (k / 2) 0) / 2

/-- Monthly total (fixed plus variable cost) of one trailing month. -/
def monthTotal (fixRows : List FixRow) (txRows : List TxRow) (m : MonthWin) : ℚ :=
  monthly_fix_cost_month fixRows m + monthly_variable_cost_month txRows m

/-- Profile returned by the emergency fund estimator.  The p75/fund_comfort
outputs and the raw series are omitted: no claim consults them. -/
structure EFProfile where
  months_factor : ℤ
  monthly_est_median : ℚ
  fund_min : ℚ
  fund_rec : ℚ
deriving DecidableEq, Repr

/-- Embedding of estimate_emergency_fund: the months factor resolved from
the parameter (6 when missing or unparsable), the monthly base estimate (the
median of the positive trailing totals, falling back to the current-month
fixed plus variable cost when no trailing total is positive), fund_min at a
fixed 3 months and fund_rec at the months factor. -/
def estimate_emergency_fund (nParam : Option ℤ) (fixRows : List FixRow)
    (txRows : List TxRow) (today : ℤ) (todayMonth : ℤ) (months : List MonthWin) :
    EFProfile :=
  let n_months := nParam.getD 6
  let total_s := months.map (monthTotal fixRows txRows)
  let nonzero := total_s.filter (fun x => decide (0 < x))
  let base :=
    if nonzero.isEmpty then
      calculate_monthly_fix_cost fixRows today +
        calculate_monthly_variable_cost txRows todayMonth
    else pandasMedian nonzero
  { months_factor := n_months, monthly_est_median := base,
    fund_min := base * 3, fund_rec := base * (n_months : ℚ) }

/-- The pandas median of a non-empty list of positive values is positive. -/
theorem pandasMedian_pos {l : List ℚ} (hne : l ≠ []) (hpos : ∀ x ∈ l, 0 < x) :
    0 < pandasMedian l := by
  simp only [pandasMedian]
  set s := l.mergeSort (fun a b => decide (a ≤ b)) with hs
  have hlen : s.length = l.length := by
    rw [hs]
    simp
  have hk : ¬(s.length = 0) := by
    rw [hlen]
    intro h
    exact hne (List.length_eq_zero.mp h)
  have hmem : ∀ x ∈ s, 0 < x := by
    intro x hx
    apply hpos
    rw [hs] at hx
    exact List.mem_mergeSort.mp hx
  rw [if_neg hk]
  by_cases hodd : s.length % 2 = 1
  · rw [if_pos hodd]
    have hlt : s.length / 2 < s.length := by omega
    rw [List.getD_eq_getElem?_getD, List.getElem?_eq_getElem hlt]
    exact hmem _ (List.getElem_mem hlt)
  · rw [if_neg hodd]
    have hlt1 : s.length / 2 - 1 < s.length := by omega
    have hlt2 : s.length / 2 < s.length := by omega
    have p1 := hmem _ (List.getElem_mem hlt1)
    have p2 := hmem _ (List.getElem_mem hlt2)
    rw [List.getD_eq_getElem?_getD, List.getElem?_eq_getElem hlt1,
      List.getD_eq_getElem?_getD, List.getElem?_eq_getElem hlt2]
    simp only [Option.getD_some]
    linarith

/-- Twelve trailing month windows (month index, start day, end day) ending
at the current month, as build_month_list constructs them. -/
def cMonths : List MonthWin :=
  [⟨-11, -330, -301⟩, ⟨-10, -300, -271⟩, ⟨-9, -270, -241⟩, ⟨-8, -240, -211⟩,
   ⟨-7, -210, -181⟩, ⟨-6, -180, -151⟩, ⟨-5, -150, -121⟩, ⟨-4, -120, -91⟩,
   ⟨-3, -90, -61⟩, ⟨-2, -60, -31⟩, ⟨-1, -30, -1⟩, ⟨0, 0, 29⟩]

/-- Counterexample to C8 as stated: a table whose only fixed cost is a
monthly row of amount -100 starting today.  No trailing total is positive,
so the estimator falls back to the current-month total -100; with the
default months factor 6 (at least 3) this gives fund_min = -300 and
fund_rec = -600, violating fund_min ≤ fund_rec. -/
theorem claim8_cx :
    (estimate_emergency_fund none [⟨some 0, none, -100, Cycle.monthly⟩] [] 0 0
      cMonths).months_factor = 6 ∧
    ¬((estimate_emergency_fund none [⟨some 0, none, -100, Cycle.monthly⟩] [] 0 0
      cMonths).fund_min ≤
      (estimate_emergency_fund none [⟨some 0, none, -100, Cycle.monthly⟩] [] 0 0
      cMonths).fund_rec) := by
  constructor <;>
    norm_num [estimate_emergency_fund, cMonths, monthTotal, monthly_fix_cost_month,
      monthly_variable_cost_month, calculate_monthly_fix_cost,
      calculate_monthly_variable_cost, fixActiveAt, fixActiveInMonth,
      cycleMonthlyAmount, List.filter_cons]

/-- C8 amended: fund_min ≤ fund_rec whenever the resolved months factor is
at least 3 AND the monthly base estimate is non-negative; moreover whenever
some trailing month total is positive the base estimate is the median of
the positive totals and hence itself positive, so in the median branch the
invariant needs no extra sign assumption.  (The counterexample shows the
fallback branch can produce a negative base from negative amounts.) -/
theorem claim8_fund_min_le_rec (nParam : Option ℤ) (fixRows : List FixRow)
    (txRows : List TxRow) (today todayMonth : ℤ) (months : List MonthWin)
    (hn : 3 ≤ (estimate_emergency_fund nParam fixRows txRows today todayMonth
      months).months_factor)
    (hbase : 0 ≤ (estimate_emergency_fund nParam fixRows txRows today todayMonth
      months).monthly_est_median) :
    (estimate_emergency_fund nParam fixRows txRows today todayMonth months).fund_min ≤
      (estimate_emergency_fund nParam fixRows txRows today todayMonth months).fund_rec ∧
    ((∃ m ∈ months, 0 < monthTotal fixRows txRows m) →
      0 < (estimate_emergency_fund nParam fixRows txRows today todayMonth
        months).monthly_est_median) := by
  constructor
  · have hcast : (3 : ℚ) ≤
        ((estimate_emergency_fund nParam fixRows txRows today todayMonth
          months).months_factor : ℚ) := by
      exact_mod_cast hn
    calc (estimate_emergency_fund nParam fixRows txRows today todayMonth months).fund_min
        = (estimate_emergency_fund nParam fixRows txRows today todayMonth
            months).monthly_est_median * 3 := rfl
      _ ≤ (estimate_emergency_fund nParam fixRows txRows today todayMonth
            months).monthly_est_median *
          ((estimate_emergency_fund nParam fixRows txRows today todayMonth
            months).months_factor : ℚ) := by
          exact mul_le_mul_of_nonneg_left hcast hbase
      _ = (estimate_emergency_fund nParam fixRows txRows today todayMonth
            months).fund_rec := rfl
  · rintro ⟨m, hm, hmpos⟩
    have hmem1 : monthTotal fixRows txRows m ∈
        (months.map (monthTotal fixRows txRows)) := List.mem_map_of_mem _ hm
    have hmem2 : monthTotal fixRows txRows m ∈
        (months.map (monthTotal fixRows txRows)).filter (fun x => decide (0 < x)) := by
      rw [List.mem_filter]
      exact ⟨hmem1, by simpa using hmpos⟩
    have hne : ((months.map (monthTotal fixRows txRows)).filter
        (fun x => decide (0 < x))) ≠ [] := List.ne_nil_of_mem hmem2
    have hEmpty : ((months.map (monthTotal fixRows txRows)).filter
        (fun x => decide (0 < x))).isEmpty = false := by
      rw [List.isEmpty_eq_false_iff_exists_mem]
      exact ⟨_, hmem2⟩
    have hbm : (estimate_emergency_fund nParam fixRows txRows today todayMonth
        months).monthly_est_median =
        pandasMedian ((months.map (monthTotal fixRows txRows)).filter
          (fun x => decide (0 < x))) := by
      simp only [estimate_emergency_fund, hEmpty, Bool.false_eq_true, if_false]
    rw [hbm]
    apply pandasMedian_pos hne
    intro x hx
    rw [List.mem_filter] at hx
    simpa using hx.2

/-- Witness for the amended C8: one monthly fixed cost of 100 active in the
single trailing month window, months factor 6. -/
theorem claim8_fund_min_le_rec_witness :
    ((estimate_emergency_fund (some 6) [⟨some 0, none, 100, Cycle.monthly⟩] [] 0 0
        [⟨0, 0, 29⟩]).fund_min ≤
      (estimate_emergency_fund (some 6) [⟨some 0, none, 100, Cycle.monthly⟩] [] 0 0
        [⟨0, 0, 29⟩]).fund_rec) ∧
    ((∃ m ∈ [(⟨0, 0, 29⟩ : MonthWin)], 0 <
        monthTotal [⟨some 0, none, 100, Cycle.monthly⟩] [] m) →
      0 < (estimate_emergency_fund (some 6) [⟨some 0, none, 100, Cycle.monthly⟩] [] 0 0
        [⟨0, 0, 29⟩]).monthly_est_median) :=
  claim8_fund_min_le_rec (some 6) [⟨some 0, none, 100, Cycle.monthly⟩] [] 0 0
    [⟨0, 0, 29⟩]
    (by norm_num [estimate_emergency_fund])
    (by norm_num [estimate_emergency_fund, monthTotal, monthly_fix_cost_month,
      monthly_variable_cost_month, fixActiveInMonth, cycleMonthlyAmount,
      List.filter_cons, pandasMedian])

end MM
